import Mathlib

/-!
Verification of the FamilyCalendar Home Assistant Lovelace card.

Shallow embedding of the card's core logic:
* `src/utils.ts` — calendar-id resolution, color resolution, event mapping,
  local date formatting.
* `src/familycalendar-card.ts` — person groups, event-source building, the
  event dialog (create/edit/delete, all-day toggle) and the service-call
  fallback gateway.

JavaScript-specific behaviour (nullish coalescing `??`, string truthiness,
insertion-ordered `Set`, `Date` parsing of the `datetime-local` formats the
dialog produces) is modelled explicitly; `null`/`undefined` becomes `Option`.
-/

namespace FamilyCalendar

/-! ## JavaScript environment helpers -/

/-- Truthiness of an optional string: `undefined`, `null` and `""` are falsy. -/
def jsTruthyStr : Option String → Bool
  | none => false
  | some s => !(s == "")

/-- JavaScript `s.trim()`: strip leading and trailing whitespace. -/
def jsTrim (s : String) : String :=
  String.mk (((s.data.dropWhile Char.isWhitespace).reverse.dropWhile
    Char.isWhitespace).reverse)

/-- JavaScript `s.replace(/c/g, r)` for a single-character pattern. -/
def jsReplaceChar (c r : Char) (s : String) : String :=
  String.mk (s.data.map (fun x => if x = c then r else x))

/-- JavaScript `locale.toLowerCase().startsWith('de')`. -/
def jsStartsWithDeLower (locale : String) : Bool :=
  (locale.data.map Char.toLower).take 2 == ['d', 'e']

/-- Insertion into a JavaScript `Set` modelled as an insertion-ordered
duplicate-free list: `Set.add` keeps the first occurrence's position. -/
def jsSetAdd (acc : List String) (x : String) : List String :=
  if x ∈ acc then acc else acc ++ [x]

/-- First-occurrence string replacement, the behaviour of JavaScript
`String.prototype.replace` with a plain-string pattern. -/
def jsReplaceFirstAux (pat rep : List Char) : List Char → List Char
  | [] => []
  | c :: rest =>
    if pat.isPrefixOf (c :: rest) then rep ++ (c :: rest).drop pat.length
    else c :: jsReplaceFirstAux pat rep rest

/-- JavaScript `s.replace(pattern, replacement)` for a plain-string pattern
(replaces only the first occurrence). -/
def jsReplaceFirst (pattern replacement s : String) : String :=
  String.mk (jsReplaceFirstAux pattern.data replacement.data s.data)

/-! ## Local date-time values

The card manipulates wall-clock `Date` values only through
`getFullYear/getMonth/getDate/getHours/getMinutes` and the two `format*`
helpers, neither of which touches seconds, so a date is modelled by its five
displayed components. `month` is the 1-based human month (the source always
uses `getMonth() + 1`). -/

structure LocalDateTime where
  year : Nat
  month : Nat
  day : Nat
  hour : Nat
  minute : Nat
  deriving DecidableEq, Repr

/-- Leap-year rule of the proleptic Gregorian calendar used by JavaScript
`Date` day arithmetic. -/
def isLeapYear (y : Nat) : Bool :=
  (y % 4 == 0 && y % 100 != 0) || y % 400 == 0

/-- Number of days of 1-based `month` in year `y` (JavaScript `Date`
normalisation). -/
def daysInMonth (y m : Nat) : Nat :=
  if m == 2 then (if isLeapYear y then 29 else 28)
  else if m == 4 || m == 6 || m == 9 || m == 11 then 30
  else 31

/-- JavaScript `d.setDate(d.getDate() - 1)`: move one day back, rolling over
month and year boundaries. -/
def subOneDay (d : LocalDateTime) : LocalDateTime :=
  if 2 ≤ d.day then { d with day := d.day - 1 }
  else if d.month = 1 then { d with year := d.year - 1, month := 12, day := 31 }
  else { d with month := d.month - 1, day := daysInMonth d.year (d.month - 1) }

/-- The `pad` helper of `formatDateTimeLocal`/`formatDateLocal`:
`String(n).padStart(2, '0')`. -/
def padTwo (n : Nat) : String :=
  if 2 ≤ (toString n).length then toString n else "0" ++ toString n

/-- Source: `utils.ts` `formatDateTimeLocal` — `YYYY-MM-DDTHH:MM` for
`datetime-local` inputs. -/
def formatDateTimeLocal (date : LocalDateTime) : String :=
  toString date.year ++ "-" ++ padTwo date.month ++ "-" ++ padTwo date.day ++
    "T" ++ padTwo date.hour ++ ":" ++ padTwo date.minute

/-- Source: `utils.ts` `formatDateLocal` — `YYYY-MM-DD` for date inputs. -/
def formatDateLocal (date : LocalDateTime) : String :=
  toString date.year ++ "-" ++ padTwo date.month ++ "-" ++ padTwo date.day

/-! ## Configuration (`types.ts` shapes as used by the code) -/

/-- One entry of `config.persons`. -/
structure PersonGroupConfig where
  name : String
  calendars : List String
  color : Option String := none
  icon : Option String := none
  deriving DecidableEq, Repr

/-- The card configuration; only the fields the verified logic reads are
modelled (presentation-only options such as `height` are omitted). -/
structure CalendarCardConfig where
  title : Option String := none
  calendars : Option (List String) := none
  persons : Option (List PersonGroupConfig) := none
  deriving DecidableEq, Repr

/-! ## `utils.ts` -/

/-- Default palette for auto-assigning colors to calendars/persons. -/
def DEFAULT_COLORS : List String :=
  ["#039be5", "#33b679", "#8e24aa", "#e67c73", "#f6c026",
   "#f5511d", "#0b8043", "#d50000", "#e4c441", "#616161"]

/-- Source: `getAllCalendarIds` — a `Set` seeded from `config.calendars ?? []`
then extended with every person's calendars, read back in insertion order. -/
def getAllCalendarIds (config : CalendarCardConfig) : List String :=
  let ids := (config.calendars.getD []).foldl jsSetAdd []
  (config.persons.getD []).foldl
    (fun acc person => person.calendars.foldl jsSetAdd acc) ids

/-- Source: `getCalendarColor` — first person whose `calendars` include the
entity and whose `color` is truthy wins, else palette by `index`. -/
def getCalendarColor (entityId : String) (config : CalendarCardConfig)
    (index : Nat) : String :=
  match (config.persons.getD []).find?
      (fun person => decide (entityId ∈ person.calendars) && jsTruthyStr person.color) with
  | some person => person.color.getD ""
  | none => DEFAULT_COLORS.getD (index % DEFAULT_COLORS.length) ""

/-- Source: `getPersonForCalendar`. -/
def getPersonForCalendar (entityId : String) (config : CalendarCardConfig) :
    Option PersonGroupConfig :=
  (config.persons.getD []).find? (fun p => decide (entityId ∈ p.calendars))

/-- One event as delivered by the host's read boundary
(`{ summary, description?, start:{date|dateTime}, end:{date|dateTime}, uid? }`;
the backend may send a `uid`, see spec §6). Field `finish` renders the wire
key `end`, a Lean keyword. -/
structure WireEventTime where
  dateTime : Option String := none
  date : Option String := none
  deriving DecidableEq, Repr

structure WireEvent where
  summary : String
  description : Option String := none
  start : WireEventTime
  finish : WireEventTime
  uid : Option String := none
  deriving DecidableEq, Repr

/-- Shape returned by `fetchCalendarEvents` after mapping. The returned
object literal has no `uid` property, so the field is `none` for every
produced value; the card's later `ev.uid` access reads `undefined`. -/
structure FetchedEvent where
  summary : String
  description : Option String
  start : String
  finish : String
  allDay : Bool
  uid : Option String
  deriving DecidableEq, Repr

/-- Source: the `events.map((ev) => ...)` body of `fetchCalendarEvents`:
`allDay = !ev.start.dateTime` (truthiness), `start = ev.start.dateTime ??
ev.start.date ?? ''` (nullish coalescing), and no `uid` key in the result. -/
def mapWireEvent (ev : WireEvent) : FetchedEvent :=
  let allDay := !(jsTruthyStr ev.start.dateTime)
  { summary := ev.summary
    description := ev.description
    start := (ev.start.dateTime.or ev.start.date).getD ""
    finish := (ev.finish.dateTime.or ev.finish.date).getD ""
    allDay := allDay
    uid := none }

/-- Source: `fetchCalendarEvents` restricted to its pure mapping (the HTTP
transport `hass.callApi` is the host's). -/
def fetchCalendarEventsMap (events : List WireEvent) : List FetchedEvent :=
  events.map mapWireEvent

/-! ## `familycalendar-card.ts` -/

/-- One renderable event handed to the rendering engine, with the
side-channel metadata the dialog later reads (`extendedProps`). -/
structure RenderableEvent where
  id : String
  title : String
  start : String
  finish : String
  allDay : Bool
  description : Option String
  entityId : String
  uid : Option String
  deriving DecidableEq, Repr

/-- Source: the per-event body inside `_buildEventSources` /
`_refreshCalendarSources`:
`eventId = ev.uid ?? `entityId__start__end__summary``; the `?? 'event'` on
`summary` is the identity because the fetched `summary` is a plain string. -/
def renderableOfFetched (entityId : String) (ev : FetchedEvent) : RenderableEvent :=
  let eventId :=
    ev.uid.getD (entityId ++ "__" ++ ev.start ++ "__" ++ ev.finish ++ "__" ++ ev.summary)
  { id := eventId
    title := ev.summary
    start := ev.start
    finish := ev.finish
    allDay := ev.allDay
    description := ev.description
    entityId := entityId
    uid := ev.uid }

/-- One engine event source; the `events` fetch closure is modelled by
`renderableOfFetched` above. -/
structure EventSource where
  id : String
  color : String
  deriving DecidableEq, Repr

/-- Source: `_buildEventSources` — iterate `allIds`, keep the visible ones,
and color by the index **within the filtered list**. -/
def buildEventSources (config : CalendarCardConfig)
    (visibleCalendars : List String) : List EventSource :=
  ((getAllCalendarIds config).filter (fun id => visibleCalendars.contains id)).mapIdx
    (fun idx entityId => { id := entityId, color := getCalendarColor entityId config idx })

/-- A person-selector group as built by the `_personGroups` getter. -/
structure PersonGroupView where
  key : String
  label : String
  ids : List String
  color : Option String := none
  icon : Option String := none
  deriving DecidableEq, Repr

/-- Source: the label of a synthetic group:
`id.replace('calendar.', '').replace(/_/g, ' ')`. -/
def humanizeCalendarId (id : String) : String :=
  jsReplaceChar '_' ' ' (jsReplaceFirst "calendar." "" id)

/-- Source: the `_personGroups` getter — one group per configured person (in
order), then one synthetic single-id group per unclaimed id of `allIds`. -/
def personGroups (config : CalendarCardConfig) : List PersonGroupView :=
  let allIds := getAllCalendarIds config
  let fromPersons := (config.persons.getD []).map
    (fun person => { key := person.name, label := person.name,
                     ids := person.calendars, color := person.color,
                     icon := person.icon : PersonGroupView })
  let grouped := (config.persons.getD []).flatMap (fun person => person.calendars)
  let ungrouped := allIds.filter (fun id => !grouped.contains id)
  fromPersons ++ ungrouped.map
    (fun id => { key := id, label := humanizeCalendarId id, ids := [id] : PersonGroupView })

/-! ### Dialog state -/

inductive DialogMode where
  | create
  | edit
  deriving DecidableEq, Repr

/-- The `NewEventData` carried while a dialog is open (`types.ts` shape:
selected start/end `Date` and the all-day flag). -/
structure NewEventData where
  start : LocalDateTime
  finish : LocalDateTime
  allDay : Bool
  deriving DecidableEq, Repr

/-- The dialog-relevant reactive fields of `FamilyCalendarForHomeassistantCard`. -/
structure CardState where
  dialogMode : DialogMode := .create
  newEventData : Option NewEventData := none
  newEventTitle : String := ""
  newEventDescription : String := ""
  newEventStart : String := ""
  newEventEnd : String := ""
  newEventCalendar : String := ""
  newEventAllDay : Bool := false
  editingEventEntityId : String := ""
  editingEventUid : String := ""
  errorMessage : String := ""
  saving : Bool := false
  deleting : Bool := false
  visibleCalendars : List String := []
  deriving DecidableEq, Repr

/-- Keys of the `_getText` dictionary. -/
inductive CardTextKey where
  | newEvent | editEvent | title | placeholder | description
  | descriptionPlaceholder | allDay | start | finish | calendar
  | cancel | save | update | delete | saving | updating | deleting
  | titleError | calendarError | uidError | deleteConfirm
  | createError | updateError | deleteError
  deriving DecidableEq, Repr

/-- German dictionary of `_getText` (key `finish` renders the source key
`end`). -/
def germanTexts : CardTextKey → String
  | .newEvent => "Neuer Termin"
  | .editEvent => "Termin bearbeiten"
  | .title => "Titel"
  | .placeholder => "Termintitel"
  | .description => "Beschreibung"
  | .descriptionPlaceholder => "Beschreibung eingeben (optional)"
  | .allDay => "Ganztägig"
  | .start => "Start"
  | .finish => "Ende"
  | .calendar => "Kalender"
  | .cancel => "Abbrechen"
  | .save => "Speichern"
  | .update => "Aktualisieren"
  | .delete => "Löschen"
  | .saving => "Speichere…"
  | .updating => "Aktualisiere…"
  | .deleting => "Lösche…"
  | .titleError => "Bitte einen Titel eingeben."
  | .calendarError => "Bitte einen Kalender auswählen."
  | .uidError => "Dieser Termin kann nicht bearbeitet oder gelöscht werden."
  | .deleteConfirm => "Diesen Termin wirklich löschen?"
  | .createError => "Termin konnte nicht erstellt werden"
  | .updateError => "Termin konnte nicht aktualisiert werden"
  | .deleteError => "Termin konnte nicht gelöscht werden"

/-- English dictionary of `_getText`. -/
def englishTexts : CardTextKey → String
  | .newEvent => "New Event"
  | .editEvent => "Edit Event"
  | .title => "Title"
  | .placeholder => "Event title"
  | .description => "Description"
  | .descriptionPlaceholder => "Enter description (optional)"
  | .allDay => "All day"
  | .start => "Start"
  | .finish => "End"
  | .calendar => "Calendar"
  | .cancel => "Cancel"
  | .save => "Save"
  | .update => "Update"
  | .delete => "Delete"
  | .saving => "Saving…"
  | .updating => "Updating…"
  | .deleting => "Deleting…"
  | .titleError => "Please enter a title."
  | .calendarError => "Please select a calendar."
  | .uidError => "This event cannot be edited or deleted."
  | .deleteConfirm => "Delete this event?"
  | .createError => "Failed to create event"
  | .updateError => "Failed to update event"
  | .deleteError => "Failed to delete event"

/-- Source: `_getText` — German dictionary when the lower-cased locale starts
with `de`, English otherwise. -/
def getText (locale : String) (key : CardTextKey) : String :=
  if jsStartsWithDeLower locale then germanTexts key else englishTexts key

/-- Source: `_openNewEventDialog` (`closed -> create`).  The target calendar
keeps its current value when still configured, else falls back to
`allIds[0] ?? ''`; visibility is not consulted. -/
def openNewEventDialog (config : CalendarCardConfig) (data : NewEventData)
    (st : CardState) : CardState :=
  let allIds := getAllCalendarIds config
  { st with
    dialogMode := .create
    editingEventEntityId := ""
    editingEventUid := ""
    newEventData := some data
    newEventTitle := ""
    newEventDescription := ""
    newEventAllDay := data.allDay
    newEventStart :=
      if data.allDay then formatDateLocal data.start else formatDateTimeLocal data.start
    newEventEnd :=
      if data.allDay then formatDateLocal (subOneDay data.finish)
      else formatDateTimeLocal data.finish
    newEventCalendar :=
      if allIds.contains st.newEventCalendar then st.newEventCalendar
      else allIds.headD ""
    errorMessage := "" }

/-- Source: `_openEditEventDialog` (`closed -> edit`).  `start`/`finish` are
the engine's `event.start`/`event.end` dates; the metadata comes from the
clicked event's `extendedProps`. -/
def openEditEventDialog (ev : RenderableEvent) (start finish : LocalDateTime)
    (st : CardState) : CardState :=
  { st with
    dialogMode := .edit
    newEventData := some { start := start, finish := finish, allDay := ev.allDay }
    newEventTitle := ev.title
    newEventAllDay := ev.allDay
    editingEventEntityId := ev.entityId
    editingEventUid := ev.uid.getD ""
    newEventStart :=
      if ev.allDay then formatDateLocal start else formatDateTimeLocal start
    newEventEnd :=
      if ev.allDay then formatDateLocal (subOneDay finish)
      else formatDateTimeLocal finish
    newEventCalendar := ev.entityId
    newEventDescription := ev.description.getD ""
    errorMessage := "" }

/-- Source: `_closeDialog` (the engine-side `unselect` has no state). -/
def closeDialog (st : CardState) : CardState :=
  { st with
    newEventData := none
    dialogMode := .create
    editingEventEntityId := ""
    editingEventUid := ""
    newEventDescription := "" }

/-! ### Persistence gateway -/

/-- A value rejected by `hass.callService`: an `Error` instance carrying a
message, or any other thrown value (`instanceof Error` is false). -/
inductive CallFailure where
  | error (message : String)
  | nonError (value : String)
  deriving DecidableEq, Repr

/-- JavaScript `(e as Error).message` on a caught value: a non-`Error` value
has no `message` property, so interpolation shows `undefined`. -/
def errMessageOf : CallFailure → String
  | .error m => m
  | .nonError _ => "undefined"

/-- Payload of a `calendar.*` service call; every field optional, matching
the `Record<string, unknown>` object the card assembles. -/
structure ServiceData where
  entity_id : Option String := none
  uid : Option String := none
  summary : Option String := none
  description : Option String := none
  start_date : Option String := none
  end_date : Option String := none
  start_date_time : Option String := none
  end_date_time : Option String := none
  deriving DecidableEq, Repr

/-- One issued backend call (domain is always `calendar`). -/
structure ServiceCall where
  service : String
  data : ServiceData
  deriving DecidableEq, Repr

/-- Source: the loop of `_callCalendarServiceWithFallback`, instrumented with
the list of services actually attempted. `respond` is the host's outcome for
each service name. -/
def callFallbackGo (respond : String → Except CallFailure Unit) :
    List String → Option CallFailure → Except CallFailure Unit × List String
  | [], lastError =>
    (Except.error (match lastError with
      | some (.error m) => .error m
      | _ => .error "Calendar service call failed."), [])
  | service :: rest, _ =>
    match respond service with
    | .ok _ => (Except.ok (), [service])
    | .error e =>
      let r := callFallbackGo respond rest (some e)
      (r.1, service :: r.2)

/-- Source: `_callCalendarServiceWithFallback` — try each service name in
order, return on the first success, and after exhausting the list throw
`lastError` when it is an `Error`, else a fresh generic `Error`. -/
def callCalendarServiceWithFallback (respond : String → Except CallFailure Unit)
    (services : List String) : Except CallFailure Unit × List String :=
  callFallbackGo respond services none

/-- Host outcome oracle for `hass.callService('calendar', service, data)`. -/
def ServiceRespond : Type := String → ServiceData → Except CallFailure Unit

/-- Source: `_saveEvent`.  Returns the updated card state together with the
backend calls issued (in order). -/
def saveEvent (locale : String) (respond : ServiceRespond) (st : CardState) :
    CardState × List ServiceCall :=
  if jsTrim st.newEventTitle = "" then
    ({ st with errorMessage := getText locale .titleError }, [])
  else if st.newEventCalendar = "" then
    ({ st with errorMessage := getText locale .calendarError }, [])
  else
    let st1 := { st with saving := true, errorMessage := "" }
    if st1.dialogMode = DialogMode.edit then
      if st1.editingEventUid = "" then
        ({ st1 with errorMessage := getText locale .uidError, saving := false }, [])
      else
        let serviceData : ServiceData :=
          { entity_id := some st1.editingEventEntityId
            uid := some st1.editingEventUid
            summary := some (jsTrim st1.newEventTitle)
            description :=
              if jsTrim st1.newEventDescription = "" then none
              else some (jsTrim st1.newEventDescription)
            start_date := if st1.newEventAllDay then some st1.newEventStart else none
            end_date := if st1.newEventAllDay then some st1.newEventEnd else none
            start_date_time := if st1.newEventAllDay then none else some st1.newEventStart
            end_date_time := if st1.newEventAllDay then none else some st1.newEventEnd }
        let r := callCalendarServiceWithFallback
          (fun s => respond s serviceData) ["edit_event", "update_event"]
        let calls := r.2.map (fun s => { service := s, data := serviceData : ServiceCall })
        match r.1 with
        | .ok _ => ({ closeDialog st1 with saving := false }, calls)
        | .error e =>
          ({ st1 with
              errorMessage := getText locale .updateError ++ ": " ++ errMessageOf e
              saving := false }, calls)
    else
      let serviceData : ServiceData :=
        { entity_id := some st1.newEventCalendar
          summary := some (jsTrim st1.newEventTitle)
          description :=
            if jsTrim st1.newEventDescription = "" then none
            else some (jsTrim st1.newEventDescription)
          start_date := if st1.newEventAllDay then some st1.newEventStart else none
          end_date := if st1.newEventAllDay then some st1.newEventEnd else none
          start_date_time := if st1.newEventAllDay then none else some st1.newEventStart
          end_date_time := if st1.newEventAllDay then none else some st1.newEventEnd }
      match respond "create_event" serviceData with
      | .ok _ =>
        ({ closeDialog st1 with saving := false },
         [{ service := "create_event", data := serviceData }])
      | .error e =>
        ({ st1 with
            errorMessage := getText locale .createError ++ ": " ++ errMessageOf e
            saving := false },
         [{ service := "create_event", data := serviceData }])

/-- Source: `_deleteEvent`.  `confirmed` is the result of the
`window.confirm` prompt. -/
def deleteEvent (locale : String) (respond : ServiceRespond) (confirmed : Bool)
    (st : CardState) : CardState × List ServiceCall :=
  if st.dialogMode ≠ DialogMode.edit then (st, [])
  else if st.editingEventUid = "" then
    ({ st with errorMessage := getText locale .uidError }, [])
  else if !confirmed then (st, [])
  else
    let st1 := { st with deleting := true, errorMessage := "" }
    let serviceData : ServiceData :=
      { entity_id := some st1.editingEventEntityId, uid := some st1.editingEventUid }
    let r := callCalendarServiceWithFallback
      (fun s => respond s serviceData) ["delete_event", "remove_event"]
    let calls := r.2.map (fun s => { service := s, data := serviceData : ServiceCall })
    match r.1 with
    | .ok _ => ({ closeDialog st1 with deleting := false }, calls)
    | .error e =>
      ({ st1 with
          errorMessage := getText locale .deleteError ++ ": " ++ errMessageOf e
          deleting := false }, calls)

/-! ### The host's `Date` parser, restricted to the dialog's formats

`_handleAllDayToggle` feeds `new Date(...)` either a `datetime-local` value
`YYYY-MM-DDTHH:MM` (optionally with `:SS`) or a date value completed to
`YYYY-MM-DDT00:00:00`; both parse as local wall-clock time. Anything outside
those shapes is modelled as an invalid date (`none`), matching the
`Number.isNaN(date.getTime())` guard. Seconds are accepted but not kept: no
string the card ever formats carries nonzero seconds. -/

/-- Value of a decimal digit character. -/
def digitVal (c : Char) : Option Nat :=
  if c.isDigit then some (c.toNat - 48) else none

/-- Read exactly two digit characters. -/
def readTwo : List Char → Option (Nat × List Char)
  | c1 :: c2 :: rest => do
    let a ← digitVal c1
    let b ← digitVal c2
    pure (10 * a + b, rest)
  | _ => none

/-- Read exactly four digit characters. -/
def readFour : List Char → Option (Nat × List Char)
  | c1 :: c2 :: c3 :: c4 :: rest => do
    let a ← digitVal c1
    let b ← digitVal c2
    let c ← digitVal c3
    let d ← digitVal c4
    pure (1000 * a + 100 * b + 10 * c + d, rest)
  | _ => none

/-- Expect one literal character. -/
def expectChar (c : Char) : List Char → Option (List Char)
  | x :: rest => if x = c then some rest else none
  | [] => none

/-- Optional trailing `:SS`; the seconds value is validated but dropped. -/
def readOptionalSeconds : List Char → Option (List Char)
  | [] => some []
  | cs => do
    let r ← expectChar ':' cs
    let (_, r2) ← readTwo r
    if r2 = [] then some [] else none

/-- Model of `new Date(s)` for the wall-clock strings the dialog produces. -/
def jsNewDate (s : String) : Option LocalDateTime := do
  let (y, r1) ← readFour s.data
  let r2 ← expectChar '-' r1
  let (m, r3) ← readTwo r2
  let r4 ← expectChar '-' r3
  let (d, r5) ← readTwo r4
  let r6 ← expectChar 'T' r5
  let (h, r7) ← readTwo r6
  let r8 ← expectChar ':' r7
  let (mi, r9) ← readTwo r8
  let _ ← readOptionalSeconds r9
  pure { year := y, month := m, day := d, hour := h, minute := mi }

/-- Source: the `parseInput` closure of `_handleAllDayToggle` — empty strings
are skipped, all-day values are completed with `T00:00:00` before parsing. -/
def parseToggleInput (value : String) (allDay : Bool) : Option LocalDateTime :=
  if value = "" then none
  else if allDay then jsNewDate (value ++ "T00:00:00")
  else jsNewDate value

/-- Source: `_handleAllDayToggle` — reinterpret the current start/end strings
under the new all-day flag, falling back to the seeded `_newEventData` window
when a string does not parse; bail out (state unchanged) when both fail. -/
def handleAllDayToggle (checked : Bool) (st : CardState) : CardState :=
  if st.newEventAllDay = checked then st
  else
    let parsedStart :=
      (parseToggleInput st.newEventStart st.newEventAllDay).or
        (st.newEventData.map (fun d => d.start))
    let parsedEnd :=
      (parseToggleInput st.newEventEnd st.newEventAllDay).or
        (st.newEventData.map (fun d => d.finish))
    match parsedStart, parsedEnd with
    | some ps, some pe =>
      { st with
        newEventAllDay := checked
        newEventStart := if checked then formatDateLocal ps else formatDateTimeLocal ps
        newEventEnd := if checked then formatDateLocal pe else formatDateTimeLocal pe }
    | _, _ => st

/-! ## Spec-side characterisations -/

/-- Spec formulation (§4.1/§8): de-duplication that keeps the first
occurrence of each id, in encounter order. -/
def firstSeenDedup (l : List String) : List String :=
  l.foldl jsSetAdd []

/-- The configured order of calendar ids the spec describes: the flat
`calendars` list first, then each person's calendars in configuration
order. -/
def configuredIdOrder (config : CalendarCardConfig) : List String :=
  config.calendars.getD [] ++
    (config.persons.getD []).flatMap (fun p => p.calendars)

/-! ## Helper lemmas -/

theorem foldl_jsSetAdd_flatMap (ps : List PersonGroupConfig) :
    ∀ acc : List String,
      ps.foldl (fun acc person => person.calendars.foldl jsSetAdd acc) acc =
        (ps.flatMap (fun p => p.calendars)).foldl jsSetAdd acc := by
  induction ps with
  | nil => intro acc; simp
  | cons p ps ih =>
    intro acc
    simp [List.foldl_append, ih]

theorem jsSetAdd_nodup {acc : List String} (h : acc.Nodup) (x : String) :
    (jsSetAdd acc x).Nodup := by
  unfold jsSetAdd
  by_cases hx : x ∈ acc
  · simpa [hx]
  · simp [hx, List.nodup_append, h]

theorem jsSetAdd_mem {acc : List String} {x y : String} :
    y ∈ jsSetAdd acc x ↔ y ∈ acc ∨ y = x := by
  unfold jsSetAdd
  by_cases hx : x ∈ acc
  · simp only [if_pos hx]
    constructor
    · exact fun h => Or.inl h
    · rintro (h | rfl)
      · exact h
      · exact hx
  · simp [hx]

theorem foldl_jsSetAdd_nodup (l : List String) :
    ∀ acc : List String, acc.Nodup → (l.foldl jsSetAdd acc).Nodup := by
  induction l with
  | nil => intro acc h; simpa
  | cons x l ih =>
    intro acc h
    exact ih _ (jsSetAdd_nodup h x)

theorem foldl_jsSetAdd_mem (l : List String) :
    ∀ (acc : List String) (y : String),
      y ∈ l.foldl jsSetAdd acc ↔ y ∈ acc ∨ y ∈ l := by
  induction l with
  | nil => intro acc y; simp
  | cons x l ih =>
    intro acc y
    rw [List.foldl_cons, ih, jsSetAdd_mem]
    simp [or_assoc]

/-! ## C9 — `allIds` has no duplicates and preserves first-seen order -/

/-- Claim C9: for every configuration the resolved id list has no duplicates
and equals the first-seen de-duplication of the flat `calendars` list
followed by each person's calendars in configuration order. -/
theorem getAllCalendarIds_nodup_firstSeen (config : CalendarCardConfig) :
    (getAllCalendarIds config).Nodup ∧
      getAllCalendarIds config = firstSeenDedup (configuredIdOrder config) := by
  constructor
  · unfold getAllCalendarIds
    rw [foldl_jsSetAdd_flatMap]
    exact foldl_jsSetAdd_nodup _ _ (foldl_jsSetAdd_nodup _ _ List.nodup_nil)
  · unfold getAllCalendarIds firstSeenDedup configuredIdOrder
    rw [foldl_jsSetAdd_flatMap, List.foldl_append]

/-! ## C3 — group membership of every configured id -/

/-- Number of person-selector groups whose `ids` contain `id`. -/
def groupMembershipCount (config : CalendarCardConfig) (id : String) : Nat :=
  (personGroups config).countP (fun g => decide (id ∈ g.ids))

/-- Two persons never list a common calendar id. -/
def PersonsDisjoint (config : CalendarCardConfig) : Prop :=
  (config.persons.getD []).Pairwise
    (fun p q => ∀ x ∈ p.calendars, x ∉ q.calendars)

theorem countP_le_one_of_pairwise_disjoint (id : String) :
    ∀ ps : List PersonGroupConfig,
      ps.Pairwise (fun p q => ∀ x ∈ p.calendars, x ∉ q.calendars) →
      ps.countP (fun p => decide (id ∈ p.calendars)) ≤ 1 := by
  intro ps h
  induction h with
  | nil => simp
  | cons hp _ ih =>
    rename_i p ps _
    rw [List.countP_cons]
    by_cases hmem : id ∈ p.calendars
    · have hzero : ps.countP (fun q => decide (id ∈ q.calendars)) = 0 := by
        rw [List.countP_eq_zero]
        intro q hq
        simpa using hp q hq id hmem
      simp [hzero, hmem]
    · simpa [hmem] using ih

theorem countP_singleton_ids (id : String) :
    ∀ l : List String, l.Nodup → id ∈ l →
      l.countP (fun uid => decide (id ∈ [uid])) = 1 := by
  intro l hnd hmem
  induction l with
  | nil => cases hmem
  | cons x l ih =>
    rw [List.countP_cons]
    rcases List.mem_cons.mp hmem with rfl | hmem'
    · have hnotmem : id ∉ l := (List.nodup_cons.mp hnd).1
      have hzero : l.countP (fun uid => decide (id ∈ [uid])) = 0 := by
        rw [List.countP_eq_zero]
        intro uid huid
        simp only [List.mem_singleton, decide_eq_true_iff]
        rintro rfl
        exact hnotmem huid
      rw [hzero]
      simp
    · have hne : id ≠ x := by
        rintro rfl
        exact (List.nodup_cons.mp hnd).1 hmem'
      simp only [List.mem_singleton]
      rw [if_neg (by simpa using hne)]
      simpa using ih (List.nodup_cons.mp hnd).2 hmem'

theorem groupMembershipCount_split (config : CalendarCardConfig) (id : String) :
    groupMembershipCount config id =
      (config.persons.getD []).countP (fun p => decide (id ∈ p.calendars)) +
        ((getAllCalendarIds config).filter
            (fun x => !((config.persons.getD []).flatMap (fun p => p.calendars)).contains x)).countP
          (fun uid => decide (id ∈ [uid])) := by
  unfold groupMembershipCount personGroups
  rw [List.countP_append, List.countP_map, List.countP_map]
  rfl

/-- Claim C3 (amended): every id of `allIds` belongs to at least one group;
when no two persons share a calendar id, it belongs to exactly one group. -/
theorem personGroups_membership (config : CalendarCardConfig) :
    (∀ id ∈ getAllCalendarIds config, 1 ≤ groupMembershipCount config id) ∧
      (PersonsDisjoint config →
        ∀ id ∈ getAllCalendarIds config, groupMembershipCount config id = 1) := by
  have hnodup := (getAllCalendarIds_nodup_firstSeen config).1
  constructor
  · intro id hid
    rw [groupMembershipCount_split]
    by_cases hg : id ∈ (config.persons.getD []).flatMap (fun p => p.calendars)
    · obtain ⟨p, hp, hpid⟩ := List.mem_flatMap.mp hg
      have : 0 < (config.persons.getD []).countP (fun p => decide (id ∈ p.calendars)) :=
        List.countP_pos_iff.mpr ⟨p, hp, by simpa using hpid⟩
      omega
    · have hmemf : id ∈ (getAllCalendarIds config).filter
          (fun x => !((config.persons.getD []).flatMap (fun p => p.calendars)).contains x) := by
        rw [List.mem_filter]
        exact ⟨hid, by simpa using hg⟩
      have : 0 < ((getAllCalendarIds config).filter
          (fun x => !((config.persons.getD []).flatMap (fun p => p.calendars)).contains x)).countP
            (fun uid => decide (id ∈ [uid])) :=
        List.countP_pos_iff.mpr ⟨id, hmemf, by simp⟩
      omega
  · intro hdisj id hid
    rw [groupMembershipCount_split]
    by_cases hg : id ∈ (config.persons.getD []).flatMap (fun p => p.calendars)
    · obtain ⟨p, hp, hpid⟩ := List.mem_flatMap.mp hg
      have hpos : 0 < (config.persons.getD []).countP (fun p => decide (id ∈ p.calendars)) :=
        List.countP_pos_iff.mpr ⟨p, hp, by simpa using hpid⟩
      have hle := countP_le_one_of_pairwise_disjoint id (config.persons.getD []) hdisj
      have hzero : ((getAllCalendarIds config).filter
          (fun x => !((config.persons.getD []).flatMap (fun p => p.calendars)).contains x)).countP
            (fun uid => decide (id ∈ [uid])) = 0 := by
        rw [List.countP_eq_zero]
        intro uid huid
        have := (List.mem_filter.mp huid).2
        simp only [List.mem_singleton]
        rintro h
        rw [decide_eq_true_iff] at h
        subst h
        simp [hg] at this
      omega
    · have hzero : (config.persons.getD []).countP (fun p => decide (id ∈ p.calendars)) = 0 := by
        rw [List.countP_eq_zero]
        intro p hp
        intro hc
        rw [decide_eq_true_iff] at hc
        exact hg (List.mem_flatMap.mpr ⟨p, hp, hc⟩)
      have hone : ((getAllCalendarIds config).filter
          (fun x => !((config.persons.getD []).flatMap (fun p => p.calendars)).contains x)).countP
            (fun uid => decide (id ∈ [uid])) = 1 := by
        apply countP_singleton_ids
        · exact hnodup.filter _
        · rw [List.mem_filter]
          exact ⟨hid, by simpa using hg⟩
      omega

/-- Witness for C3 (amended): with a disjoint persons list, both the
person-claimed id and the flat-list id belong to exactly one group. -/
theorem personGroups_membership_witness :
    groupMembershipCount
        { calendars := some ["calendar.y"]
          persons := some [{ name := "Alice", calendars := ["calendar.x"] }] }
        "calendar.x" = 1 ∧
      groupMembershipCount
        { calendars := some ["calendar.y"]
          persons := some [{ name := "Alice", calendars := ["calendar.x"] }] }
        "calendar.y" = 1 := by
  have h := personGroups_membership
    { calendars := some ["calendar.y"]
      persons := some [{ name := "Alice", calendars := ["calendar.x"] }] }
  exact ⟨h.2 (by simp [PersonsDisjoint]) "calendar.x" (by decide),
    h.2 (by simp [PersonsDisjoint]) "calendar.y" (by decide)⟩

/-- Counterexample to claim C3 as stated: when two persons list the same
calendar, that id belongs to two groups. -/
theorem personGroups_two_groups_counterexample :
    let config : CalendarCardConfig :=
      { persons := some [{ name := "Alice", calendars := ["calendar.x"] },
                         { name := "Bob", calendars := ["calendar.x"] }] }
    "calendar.x" ∈ getAllCalendarIds config ∧
      groupMembershipCount config "calendar.x" = 2 := by
  constructor
  · decide
  · decide

/-! ## C4 — service-name fallback of the Persistence Gateway -/

theorem callFallbackGo_trace (respond : String → Except CallFailure Unit) :
    ∀ (services : List String) (last : Option CallFailure),
      (callFallbackGo respond services last).2 =
        services.take (services.findIdx (fun s => (respond s).isOk) + 1) := by
  intro services
  induction services with
  | nil => intro last; simp [callFallbackGo]
  | cons s rest ih =>
    intro last
    simp only [callFallbackGo]
    cases h : respond s with
    | ok v => simp [List.findIdx_cons, h, Except.isOk, Except.toBool]
    | error e =>
      simp [List.findIdx_cons, h, Except.isOk, Except.toBool, ih (some e)]

theorem callFallbackGo_ok_iff (respond : String → Except CallFailure Unit) :
    ∀ (services : List String) (last : Option CallFailure),
      (callFallbackGo respond services last).1 = Except.ok () ↔
        ∃ s ∈ services, respond s = Except.ok () := by
  intro services
  induction services with
  | nil =>
    intro last
    simp only [callFallbackGo]
    constructor
    · intro h
      exact absurd h (by cases last with
        | none => simp
        | some e => cases e <;> simp)
    · rintro ⟨s, hs, -⟩
      cases hs
  | cons s rest ih =>
    intro last
    simp only [callFallbackGo]
    cases h : respond s with
    | ok v => simp [h]
    | error e =>
      simp only [List.mem_cons]
      rw [ih (some e)]
      constructor
      · rintro ⟨t, ht, hok⟩
        exact ⟨t, Or.inr ht, hok⟩
      · rintro ⟨t, ht | ht, hok⟩
        · subst ht; rw [h] at hok; cases hok
        · exact ⟨t, ht, hok⟩

theorem callFallbackGo_all_fail (respond : String → Except CallFailure Unit) :
    ∀ (services : List String) (last : Option CallFailure)
      (h : services ≠ []) (m : String),
      (∀ s ∈ services, respond s ≠ Except.ok ()) →
      respond (services.getLast h) = Except.error (CallFailure.error m) →
      (callFallbackGo respond services last).1 =
        Except.error (CallFailure.error m) := by
  intro services
  induction services with
  | nil => intro last h; exact absurd rfl h
  | cons s rest ih =>
    intro last h m hfail hlast
    have hs : respond s ≠ Except.ok () := hfail s (List.mem_cons_self s rest)
    cases hr : respond s with
    | ok v => exact absurd hr hs
    | error e =>
      simp only [callFallbackGo, hr]
      cases rest with
      | nil =>
        have : s = ([s].getLast h : String) := rfl
        rw [← this] at hlast
        rw [hr] at hlast
        cases hlast
        simp [callFallbackGo]
      | cons t rest' =>
        have hne : (t :: rest') ≠ [] := by simp
        have hlast' : respond ((t :: rest').getLast hne) =
            Except.error (CallFailure.error m) := by
          rwa [List.getLast_cons hne] at hlast
        exact ih (some e) hne m
          (fun u hu => hfail u (List.mem_cons_of_mem s hu)) hlast'

/-- Claim C4: the gateway attempts the synonyms in list order, stopping at
and succeeding with the first accepted call; when every synonym rejects, the
surfaced failure is the rejection of the last attempted synonym (which the
source re-throws when it is an `Error`). -/
theorem callCalendarServiceWithFallback_spec
    (respond : String → Except CallFailure Unit) (services : List String) :
    (callCalendarServiceWithFallback respond services).2 =
        services.take (services.findIdx (fun s => (respond s).isOk) + 1) ∧
      ((callCalendarServiceWithFallback respond services).1 = Except.ok () ↔
        ∃ s ∈ services, respond s = Except.ok ()) ∧
      (∀ (h : services ≠ []) (m : String),
        (∀ s ∈ services, respond s ≠ Except.ok ()) →
        respond (services.getLast h) = Except.error (CallFailure.error m) →
        (callCalendarServiceWithFallback respond services).1 =
          Except.error (CallFailure.error m)) :=
  ⟨callFallbackGo_trace respond services none,
   callFallbackGo_ok_iff respond services none,
   fun h m => callFallbackGo_all_fail respond services none h m⟩

/-- Witness for C4 at a concrete all-rejecting backend: both update synonyms
are attempted in order and the second (final) failure is surfaced. -/
theorem callCalendarServiceWithFallback_spec_witness :
    (callCalendarServiceWithFallback
        (fun s => Except.error (CallFailure.error ("fail-" ++ s)))
        ["edit_event", "update_event"]).1 =
        Except.error (CallFailure.error "fail-update_event") ∧
      (callCalendarServiceWithFallback
        (fun s => Except.error (CallFailure.error ("fail-" ++ s)))
        ["edit_event", "update_event"]).2 = ["edit_event", "update_event"] := by
  have h := callCalendarServiceWithFallback_spec
    (fun s => Except.error (CallFailure.error ("fail-" ++ s)))
    ["edit_event", "update_event"]
  refine ⟨h.2.2 (by decide) "fail-update_event"
    (fun s _ hok => Except.noConfusion hok) rfl, ?_⟩
  rw [h.1]
  rfl

/-! ## C7 — validation failures: message set, dialog untouched, no calls -/

/-- Claim C7: a save with a blank (after trimming) title, or with an empty
target calendar, only sets the respective validation message — every other
field (including the open dialog's `newEventData` and the entered values) is
unchanged and no backend call is issued. -/
theorem saveEvent_validation (locale : String) (respond : ServiceRespond)
    (st : CardState) :
    (jsTrim st.newEventTitle = "" →
      saveEvent locale respond st =
        ({ st with errorMessage := getText locale .titleError }, [])) ∧
      (jsTrim st.newEventTitle ≠ "" → st.newEventCalendar = "" →
        saveEvent locale respond st =
          ({ st with errorMessage := getText locale .calendarError }, [])) := by
  constructor
  · intro h
    simp [saveEvent, h]
  · intro h hc
    simp [saveEvent, h, hc]

/-- Witness for C7: an empty-title save and an empty-calendar save at
concrete states. -/
theorem saveEvent_validation_witness :
    (saveEvent "en" (fun _ _ => Except.ok ())
        { newEventTitle := "   ", newEventCalendar := "calendar.a" } =
      ({ newEventTitle := "   ", newEventCalendar := "calendar.a",
         errorMessage := "Please enter a title." }, [])) ∧
      (saveEvent "en" (fun _ _ => Except.ok ())
          { newEventTitle := "Lunch", newEventCalendar := "" } =
        ({ newEventTitle := "Lunch", newEventCalendar := "",
           errorMessage := "Please select a calendar." }, [])) := by
  constructor
  · exact (saveEvent_validation "en" (fun _ _ => Except.ok ())
      { newEventTitle := "   ", newEventCalendar := "calendar.a" }).1 (by decide)
  · exact (saveEvent_validation "en" (fun _ _ => Except.ok ())
      { newEventTitle := "Lunch", newEventCalendar := "" }).2 (by decide) rfl

/-! ## C6 — edit/delete without a uid -/

/-- Claim C6 (amended): in edit mode with no uid, a save that passes the
title/calendar validation, and any delete, set the specific
"cannot be edited or deleted" message, keep the dialog open and issue zero
backend calls. (A blank title is reported as a title validation error
instead — see the counterexample.) -/
theorem saveDeleteEvent_requires_uid (locale : String) (respond : ServiceRespond)
    (confirmed : Bool) (st : CardState)
    (hmode : st.dialogMode = DialogMode.edit) (huid : st.editingEventUid = "") :
    (jsTrim st.newEventTitle ≠ "" → st.newEventCalendar ≠ "" →
      saveEvent locale respond st =
        ({ st with saving := false, errorMessage := getText locale .uidError }, [])) ∧
      deleteEvent locale respond confirmed st =
        ({ st with errorMessage := getText locale .uidError }, []) := by
  constructor
  · intro ht hc
    simp [saveEvent, ht, hc, hmode, huid]
  · simp [deleteEvent, hmode, huid]

/-- Witness for C6 (amended) at a concrete no-uid edit draft. -/
theorem saveDeleteEvent_requires_uid_witness :
    (saveEvent "en" (fun _ _ => Except.ok ())
        { dialogMode := .edit, newEventTitle := "Lunch",
          newEventCalendar := "calendar.a", editingEventUid := "" } =
      ({ dialogMode := .edit, newEventTitle := "Lunch",
         newEventCalendar := "calendar.a", editingEventUid := "",
         saving := false,
         errorMessage := "This event cannot be edited or deleted." }, [])) ∧
      (deleteEvent "en" (fun _ _ => Except.ok ()) true
          { dialogMode := .edit, newEventTitle := "Lunch",
            newEventCalendar := "calendar.a", editingEventUid := "" } =
        ({ dialogMode := .edit, newEventTitle := "Lunch",
           newEventCalendar := "calendar.a", editingEventUid := "",
           errorMessage := "This event cannot be edited or deleted." }, [])) := by
  have h := saveDeleteEvent_requires_uid "en" (fun _ _ => Except.ok ()) true
    { dialogMode := .edit, newEventTitle := "Lunch",
      newEventCalendar := "calendar.a", editingEventUid := "" } rfl rfl
  exact ⟨h.1 (by decide) (by decide), h.2⟩

/-- Counterexample to claim C6 as stated: a no-uid edit draft whose title is
also blank is rejected with the *title* validation message, not the
"cannot be edited or deleted" message. -/
theorem saveEvent_no_uid_blank_title_counterexample :
    (saveEvent "en" (fun _ _ => Except.ok ())
        { dialogMode := .edit, newEventTitle := "",
          newEventCalendar := "calendar.a", editingEventUid := "" }).1.errorMessage =
        "Please enter a title." ∧
      "Please enter a title." ≠ "This event cannot be edited or deleted." := by
  constructor
  · rfl
  · decide

/-! ## C10 — edit saves target the originally owning calendar -/

/-- The service payload the edit branch of `_saveEvent` assembles (named for
reuse in statements; identical to the inline record in `saveEvent`). -/
def editServiceData (st : CardState) : ServiceData :=
  { entity_id := some st.editingEventEntityId
    uid := some st.editingEventUid
    summary := some (jsTrim st.newEventTitle)
    description :=
      if jsTrim st.newEventDescription = "" then none
      else some (jsTrim st.newEventDescription)
    start_date := if st.newEventAllDay then some st.newEventStart else none
    end_date := if st.newEventAllDay then some st.newEventEnd else none
    start_date_time := if st.newEventAllDay then none else some st.newEventStart
    end_date_time := if st.newEventAllDay then none else some st.newEventEnd }

theorem saveEvent_edit_calls (locale : String) (respond : ServiceRespond)
    (st : CardState) (hmode : st.dialogMode = DialogMode.edit)
    (ht : jsTrim st.newEventTitle ≠ "") (hcal : st.newEventCalendar ≠ "")
    (hu : st.editingEventUid ≠ "") :
    (saveEvent locale respond st).2 =
      (callCalendarServiceWithFallback (fun s => respond s (editServiceData st))
          ["edit_event", "update_event"]).2.map
        (fun s => { service := s, data := editServiceData st }) := by
  simp only [saveEvent, ht, hmode, hu, if_neg hcal, if_true, if_false,
    ite_true, ite_false]
  split <;> rfl

/-- Claim C10: in edit mode every issued call carries the entity id captured
when the dialog was opened, and the issued calls do not depend on the
calendar-picker value (as long as it is non-empty, which every picker option
is). -/
theorem saveEvent_edit_targets_original_calendar (locale : String)
    (respond : ServiceRespond) (st : CardState) (c2 : String)
    (hmode : st.dialogMode = DialogMode.edit)
    (hcal : st.newEventCalendar ≠ "") (hcal2 : c2 ≠ "") :
    (∀ call ∈ (saveEvent locale respond st).2,
      call.data.entity_id = some st.editingEventEntityId) ∧
      (saveEvent locale respond { st with newEventCalendar := c2 }).2 =
        (saveEvent locale respond st).2 := by
  by_cases ht : jsTrim st.newEventTitle = ""
  · constructor
    · intro call hcall
      rw [(saveEvent_validation locale respond st).1 ht] at hcall
      cases hcall
    · rw [(saveEvent_validation locale respond st).1 ht,
        (saveEvent_validation locale respond { st with newEventCalendar := c2 }).1 ht]
  · by_cases hu : st.editingEventUid = ""
    · constructor
      · intro call hcall
        rw [((saveDeleteEvent_requires_uid locale respond true st hmode hu).1
          ht hcal : _)] at hcall
        cases hcall
      · rw [((saveDeleteEvent_requires_uid locale respond true st hmode hu).1
            ht hcal : _),
          ((saveDeleteEvent_requires_uid locale respond true
            { st with newEventCalendar := c2 } hmode hu).1 ht hcal2 : _)]
    · constructor
      · intro call hcall
        rw [saveEvent_edit_calls locale respond st hmode ht hcal hu] at hcall
        simp only [List.mem_map] at hcall
        obtain ⟨s, -, rfl⟩ := hcall
        rfl
      · rw [saveEvent_edit_calls locale respond st hmode ht hcal hu,
          saveEvent_edit_calls locale respond { st with newEventCalendar := c2 }
            hmode ht hcal2 hu]
        rw [show editServiceData { st with newEventCalendar := c2 } =
          editServiceData st from rfl]

/-- Witness for C10: a concrete edit-mode save with a changed picker value
still writes to the original calendar. -/
theorem saveEvent_edit_targets_original_calendar_witness :
    (∀ call ∈ (saveEvent "en" (fun _ _ => Except.ok ())
        { dialogMode := .edit, newEventTitle := "Lunch",
          newEventCalendar := "calendar.b", editingEventEntityId := "calendar.a",
          editingEventUid := "uid-1" }).2,
      call.data.entity_id = some "calendar.a") ∧
      (saveEvent "en" (fun _ _ => Except.ok ())
          { dialogMode := .edit, newEventTitle := "Lunch",
            newEventCalendar := "calendar.c", editingEventEntityId := "calendar.a",
            editingEventUid := "uid-1" }).2 =
        (saveEvent "en" (fun _ _ => Except.ok ())
            { dialogMode := .edit, newEventTitle := "Lunch",
              newEventCalendar := "calendar.b", editingEventEntityId := "calendar.a",
              editingEventUid := "uid-1" }).2 := by
  have h := saveEvent_edit_targets_original_calendar "en" (fun _ _ => Except.ok ())
    { dialogMode := .edit, newEventTitle := "Lunch",
      newEventCalendar := "calendar.b", editingEventEntityId := "calendar.a",
      editingEventUid := "uid-1" } "calendar.c" rfl (by decide) (by decide)
  exact h

/-! ## C8 — seeding of the create dialog -/

/-- Claim C8 (amended): a slot/day selection seeds the draft with the
selected window (the exclusive all-day end pulled back one day), `allDay`
from the selection and empty title/description; the target calendar keeps
its previous value when that is still a configured id and otherwise falls
back to the first *configured* id — the visibility set is not consulted. -/
theorem openNewEventDialog_seeds (config : CalendarCardConfig)
    (data : NewEventData) (st : CardState) :
    (openNewEventDialog config data st).newEventTitle = "" ∧
      (openNewEventDialog config data st).newEventDescription = "" ∧
      (openNewEventDialog config data st).newEventAllDay = data.allDay ∧
      (openNewEventDialog config data st).newEventData = some data ∧
      (openNewEventDialog config data st).dialogMode = DialogMode.create ∧
      (openNewEventDialog config data st).errorMessage = "" ∧
      (openNewEventDialog config data st).newEventStart =
        (if data.allDay then formatDateLocal data.start
          else formatDateTimeLocal data.start) ∧
      (openNewEventDialog config data st).newEventEnd =
        (if data.allDay then formatDateLocal (subOneDay data.finish)
          else formatDateTimeLocal data.finish) ∧
      (openNewEventDialog config data st).newEventCalendar =
        (if (getAllCalendarIds config).contains st.newEventCalendar
          then st.newEventCalendar else (getAllCalendarIds config).headD "") := by
  cases h : data.allDay <;>
    simp [openNewEventDialog, h]

/-- Counterexample to claim C8 as stated: with the first configured calendar
hidden, the seeded default calendar is still the (hidden) previous selection,
not the first currently-visible id. -/
theorem openNewEventDialog_ignores_visibility_counterexample :
    (openNewEventDialog { calendars := some ["calendar.a", "calendar.b"] }
        { start := ⟨2026, 5, 3, 9, 0⟩, finish := ⟨2026, 5, 3, 10, 0⟩, allDay := false }
        { newEventCalendar := "calendar.a",
          visibleCalendars := ["calendar.b"] }).newEventCalendar = "calendar.a" ∧
      ((getAllCalendarIds { calendars := some ["calendar.a", "calendar.b"] }).filter
          (fun id => List.contains ["calendar.b"] id)).headD "" = "calendar.b" ∧
      ("calendar.a" : String) ≠ "calendar.b" := by
  refine ⟨rfl, rfl, ?_⟩
  decide

/-! ## C2 — color resolution of rebuilt event sources -/

/-- The group-color clause of the claim: the color of the person group the
calendar belongs to, when that group defines one (the source scans persons in
order and skips groups without a truthy color). -/
def personColorFor (config : CalendarCardConfig) (id : String) : Option String :=
  ((config.persons.getD []).find?
      (fun p => decide (id ∈ p.calendars) && jsTruthyStr p.color)).bind
    (fun p => p.color)

theorem getCalendarColor_characterisation (id : String)
    (config : CalendarCardConfig) (i : Nat) :
    getCalendarColor id config i =
      (personColorFor config id).getD
        (DEFAULT_COLORS.getD (i % DEFAULT_COLORS.length) "") := by
  unfold getCalendarColor personColorFor
  cases hf : (config.persons.getD []).find?
      (fun p => decide (id ∈ p.calendars) && jsTruthyStr p.color) with
  | none => simp
  | some p =>
    have hpred := List.find?_some hf
    rw [Bool.and_eq_true] at hpred
    cases hcol : p.color with
    | none => rw [hcol] at hpred; cases hpred.2
    | some c => simp [hcol]

/-- Claim C2 (amended): each rebuilt source's color is its person group's
color when that group defines one, else the palette entry indexed by the
calendar's position **in the visibility-filtered list** (not in `allIds`)
modulo the palette size; consequently a calendar's color is stable across
rebuilds exactly when the filtered id list is unchanged. -/
theorem buildEventSources_color_resolution (config : CalendarCardConfig)
    (visible : List String) :
    buildEventSources config visible =
        ((getAllCalendarIds config).filter (fun id => visible.contains id)).mapIdx
          (fun i id =>
            { id := id
              color := (personColorFor config id).getD
                (DEFAULT_COLORS.getD (i % DEFAULT_COLORS.length) "") }) ∧
      (∀ visible2 : List String,
        (getAllCalendarIds config).filter (fun id => visible.contains id) =
          (getAllCalendarIds config).filter (fun id => visible2.contains id) →
        buildEventSources config visible = buildEventSources config visible2) := by
  constructor
  · unfold buildEventSources
    have hfun : (fun (idx : Nat) (entityId : String) =>
        { id := entityId, color := getCalendarColor entityId config idx : EventSource }) =
        (fun (i : Nat) (id : String) =>
          { id := id
            color := (personColorFor config id).getD
              (DEFAULT_COLORS.getD (i % DEFAULT_COLORS.length) "") : EventSource }) := by
      funext i id
      rw [getCalendarColor_characterisation]
    rw [hfun]
  · intro visible2 hfilter
    unfold buildEventSources
    rw [hfilter]

/-- Witness for C2 (amended): with person-colored `calendar.p` and palette
`calendar.a`/`calendar.b`, the resolved colors match the characterisation,
and two visibility lists with the same filtered ids rebuild identically. -/
theorem buildEventSources_color_resolution_witness :
    buildEventSources
        { calendars := some ["calendar.a", "calendar.b"]
          persons := some [{ name := "Paula", calendars := ["calendar.p"],
                             color := some "#123456" }] }
        ["calendar.a", "calendar.b", "calendar.p"] =
      [{ id := "calendar.a", color := "#039be5" },
       { id := "calendar.b", color := "#33b679" },
       { id := "calendar.p", color := "#123456" }] ∧
      buildEventSources
          { calendars := some ["calendar.a", "calendar.b"]
            persons := some [{ name := "Paula", calendars := ["calendar.p"],
                               color := some "#123456" }] }
          ["calendar.a", "calendar.b", "calendar.p"] =
        buildEventSources
          { calendars := some ["calendar.a", "calendar.b"]
            persons := some [{ name := "Paula", calendars := ["calendar.p"],
                               color := some "#123456" }] }
          ["calendar.p", "calendar.b", "calendar.a"] := by
  have h := buildEventSources_color_resolution
    { calendars := some ["calendar.a", "calendar.b"]
      persons := some [{ name := "Paula", calendars := ["calendar.p"],
                         color := some "#123456" }] }
    ["calendar.a", "calendar.b", "calendar.p"]
  constructor
  · rw [h.1]
    rfl
  · exact h.2 ["calendar.p", "calendar.b", "calendar.a"] rfl

/-- Counterexample to claim C2 as stated: the palette index is the position
in the filtered visible list, so hiding `calendar.a` changes `calendar.b`'s
resolved color, although `allIds` and its ordering are unchanged. -/
theorem buildEventSources_color_visibility_counterexample :
    (buildEventSources { calendars := some ["calendar.a", "calendar.b"] }
        ["calendar.a", "calendar.b"]).map (fun s => s.color) =
        ["#039be5", "#33b679"] ∧
      (buildEventSources { calendars := some ["calendar.a", "calendar.b"] }
          ["calendar.b"]).map (fun s => s.color) = ["#039be5"] ∧
      DEFAULT_COLORS.getD (1 % DEFAULT_COLORS.length) "" = "#33b679" ∧
      ("#33b679" : String) ≠ "#039be5" := by
  refine ⟨rfl, rfl, rfl, ?_⟩
  decide

/-! ## C1 — identity and metadata of mapped events -/

/-- Claim C1 fails on the code: `fetchCalendarEvents` maps the wire events
into objects without a `uid` key, so the renderable event's `uid` metadata is
always absent and its identity is always the composite string — even when
the backend supplied a uid. The conjunction evaluates the pipeline at a
concrete wire event carrying `uid-1`. -/
theorem renderable_uid_always_dropped :
    (∀ (entityId : String) (w : WireEvent),
      (renderableOfFetched entityId (mapWireEvent w)).uid = none ∧
        (renderableOfFetched entityId (mapWireEvent w)).id =
          entityId ++ "__" ++ (mapWireEvent w).start ++ "__" ++
            (mapWireEvent w).finish ++ "__" ++ w.summary) ∧
      ((renderableOfFetched "calendar.a" (mapWireEvent
          { summary := "Lunch"
            start := { dateTime := some "2026-05-03T12:00:00" }
            finish := { dateTime := some "2026-05-03T13:00:00" }
            uid := some "uid-1" })).uid = none ∧
        (renderableOfFetched "calendar.a" (mapWireEvent
          { summary := "Lunch"
            start := { dateTime := some "2026-05-03T12:00:00" }
            finish := { dateTime := some "2026-05-03T13:00:00" }
            uid := some "uid-1" })).id =
          "calendar.a__2026-05-03T12:00:00__2026-05-03T13:00:00__Lunch" ∧
        (renderableOfFetched "calendar.a" (mapWireEvent
          { summary := "Lunch"
            start := { dateTime := some "2026-05-03T12:00:00" }
            finish := { dateTime := some "2026-05-03T13:00:00" }
            uid := some "uid-1" })).id ≠ "uid-1") := by
  refine ⟨fun entityId w => ⟨rfl, rfl⟩, rfl, rfl, ?_⟩
  decide

/-! ## C5 — decimal-printing lemmas for the date round trip -/

theorem toDigitsCore_acc (fuel : Nat) :
    ∀ (n : Nat) (acc : List Char),
      Nat.toDigitsCore 10 fuel n acc = Nat.toDigitsCore 10 fuel n [] ++ acc := by
  induction fuel with
  | zero => intro n acc; simp [Nat.toDigitsCore]
  | succ fuel ih =>
    intro n acc
    simp only [Nat.toDigitsCore]
    by_cases h : n / 10 = 0
    · simp [h]
    · simp only [if_neg h]
      rw [ih (n / 10) (Nat.digitChar (n % 10) :: acc),
        ih (n / 10) [Nat.digitChar (n % 10)], List.append_assoc]
      rfl

theorem toDigitsCore_fuel (n : Nat) :
    ∀ f1 f2 : Nat, n < f1 → n < f2 →
      Nat.toDigitsCore 10 f1 n [] = Nat.toDigitsCore 10 f2 n [] := by
  induction n using Nat.strong_induction_on with
  | _ n ih =>
    intro f1 f2 h1 h2
    cases f1 with
    | zero => omega
    | succ g1 =>
      cases f2 with
      | zero => omega
      | succ g2 =>
        simp only [Nat.toDigitsCore]
        by_cases h : n / 10 = 0
        · simp [h]
        · simp only [if_neg h]
          rw [toDigitsCore_acc g1, toDigitsCore_acc g2,
            ih (n / 10) (by omega) g1 g2 (by omega) (by omega)]

theorem toDigitsCore_succ (fuel n : Nat) (acc : List Char) :
    Nat.toDigitsCore 10 (fuel + 1) n acc =
      if n / 10 = 0 then Nat.digitChar (n % 10) :: acc
      else Nat.toDigitsCore 10 fuel (n / 10) (Nat.digitChar (n % 10) :: acc) := rfl

theorem toDigits_ten_step (n : Nat) (h : 10 ≤ n) :
    Nat.toDigits 10 n = Nat.toDigits 10 (n / 10) ++ [Nat.digitChar (n % 10)] := by
  unfold Nat.toDigits
  have hne : n / 10 ≠ 0 := by omega
  rw [toDigitsCore_succ, if_neg hne, toDigitsCore_acc,
    toDigitsCore_fuel (n / 10) n (n / 10 + 1) (by omega) (by omega)]

theorem toDigits_ten_single (n : Nat) (h : n < 10) :
    Nat.toDigits 10 n = [Nat.digitChar n] := by
  interval_cases n <;> rfl

theorem toString_nat_data (n : Nat) : (toString n).data = Nat.toDigits 10 n := rfl

theorem toString_data_one (n : Nat) (h : n < 10) :
    (toString n).data = [Nat.digitChar n] := by
  rw [toString_nat_data, toDigits_ten_single n h]

theorem toString_data_two (n : Nat) (h1 : 10 ≤ n) (h2 : n < 100) :
    (toString n).data = [Nat.digitChar (n / 10), Nat.digitChar (n % 10)] := by
  rw [toString_nat_data, toDigits_ten_step n h1,
    toDigits_ten_single (n / 10) (by omega)]
  rfl

theorem toString_data_four (y : Nat) (h1 : 1000 ≤ y) (h2 : y < 10000) :
    (toString y).data =
      [Nat.digitChar (y / 1000), Nat.digitChar (y / 100 % 10),
       Nat.digitChar (y / 10 % 10), Nat.digitChar (y % 10)] := by
  rw [toString_nat_data, toDigits_ten_step y (by omega),
    toDigits_ten_step (y / 10) (by omega),
    toDigits_ten_step (y / 10 / 10) (by omega),
    toDigits_ten_single (y / 10 / 10 / 10) (by omega)]
  simp [show y / 10 / 10 = y / 100 from by omega,
    show y / 100 / 10 = y / 1000 from by omega]

theorem padTwo_data (n : Nat) (h : n < 100) :
    (padTwo n).data = [Nat.digitChar (n / 10), Nat.digitChar (n % 10)] := by
  unfold padTwo
  by_cases h10 : n < 10
  · have hdata : (toString n).data = [Nat.digitChar n] := toString_data_one n h10
    have hlen : (toString n).length = 1 := by
      show (toString n).data.length = 1
      rw [hdata]
      rfl
    rw [if_neg (by omega), String.data_append, hdata]
    rw [show n / 10 = 0 from by omega, show n % 10 = n from by omega]
    rfl
  · have hdata := toString_data_two n (by omega) h
    have hlen : (toString n).length = 2 := by
      show (toString n).data.length = 2
      rw [hdata]
      rfl
    rw [if_pos (by omega), hdata]

theorem digitVal_digitChar : ∀ k, k < 10 → digitVal (Nat.digitChar k) = some k := by
  decide

theorem readTwo_padTwo (n : Nat) (h : n < 100) (rest : List Char) :
    readTwo ((padTwo n).data ++ rest) = some (n, rest) := by
  rw [padTwo_data n h]
  simp [readTwo, digitVal_digitChar (n / 10) (by omega),
    digitVal_digitChar (n % 10) (by omega)]
  omega

theorem readFour_toString (y : Nat) (h1 : 1000 ≤ y) (h2 : y < 10000)
    (rest : List Char) :
    readFour ((toString y).data ++ rest) = some (y, rest) := by
  rw [toString_data_four y h1 h2]
  simp [readFour, digitVal_digitChar (y / 1000) (by omega),
    digitVal_digitChar (y / 100 % 10) (by omega),
    digitVal_digitChar (y / 10 % 10) (by omega),
    digitVal_digitChar (y % 10) (by omega)]
  omega

theorem expectChar_cons (c : Char) (rest : List Char) :
    expectChar c (c :: rest) = some rest := by
  simp [expectChar]

/-! ### Round trips between the format helpers and the `Date` parser -/

theorem jsNewDate_format_dateTime (d : LocalDateTime)
    (hy1 : 1000 ≤ d.year) (hy2 : d.year < 10000) (hm : d.month < 100)
    (hd : d.day < 100) (hh : d.hour < 100) (hmin : d.minute < 100) :
    jsNewDate (formatDateTimeLocal d) = some d := by
  unfold jsNewDate formatDateTimeLocal
  simp only [String.data_append, List.append_assoc]
  rw [show (padTwo d.minute).data = (padTwo d.minute).data ++ [] from
    (List.append_nil _).symm]
  simp only [readFour_toString d.year hy1 hy2, Option.bind_eq_bind,
    Option.some_bind, List.singleton_append, expectChar_cons,
    readTwo_padTwo d.month hm, readTwo_padTwo d.day hd,
    readTwo_padTwo d.hour hh, readTwo_padTwo d.minute hmin]
  rfl

theorem jsNewDate_format_date_midnight (d : LocalDateTime)
    (hy1 : 1000 ≤ d.year) (hy2 : d.year < 10000) (hm : d.month < 100)
    (hd : d.day < 100) :
    jsNewDate (formatDateLocal d ++ "T00:00:00") =
      some { year := d.year, month := d.month, day := d.day,
             hour := 0, minute := 0 } := by
  unfold jsNewDate formatDateLocal
  simp only [String.data_append, List.append_assoc]
  simp only [readFour_toString d.year hy1 hy2, Option.bind_eq_bind,
    Option.some_bind, List.singleton_append, expectChar_cons,
    readTwo_padTwo d.month hm, readTwo_padTwo d.day hd]
  rfl

theorem formatDateTimeLocal_ne_empty (d : LocalDateTime)
    (hy1 : 1000 ≤ d.year) (hy2 : d.year < 10000) :
    formatDateTimeLocal d ≠ "" := by
  intro hcontra
  have hdata := congrArg String.data hcontra
  rw [show ("" : String).data = [] from rfl] at hdata
  unfold formatDateTimeLocal at hdata
  simp only [String.data_append, List.append_assoc,
    toString_data_four d.year hy1 hy2] at hdata
  cases hdata

theorem formatDateLocal_ne_empty (d : LocalDateTime)
    (hy1 : 1000 ≤ d.year) (hy2 : d.year < 10000) :
    formatDateLocal d ≠ "" := by
  intro hcontra
  have hdata := congrArg String.data hcontra
  rw [show ("" : String).data = [] from rfl] at hdata
  unfold formatDateLocal at hdata
  simp only [String.data_append, List.append_assoc,
    toString_data_four d.year hy1 hy2] at hdata
  cases hdata

/-- Claim C5: starting from a timed dialog (start/end of the
`datetime-local` shape the dialog holds), toggling all-day → timed →
all-day reproduces exactly the date strings of the first all-day
conversion — repeated toggling does not drift the date. -/
theorem allDayToggle_roundtrip (st : CardState) (ds de : LocalDateTime)
    (hAD : st.newEventAllDay = false)
    (hs : st.newEventStart = formatDateTimeLocal ds)
    (he : st.newEventEnd = formatDateTimeLocal de)
    (hy1 : 1000 ≤ ds.year) (hy2 : ds.year < 10000) (hm : ds.month < 100)
    (hd : ds.day < 100) (hh : ds.hour < 100) (hmin : ds.minute < 100)
    (hy1e : 1000 ≤ de.year) (hy2e : de.year < 10000) (hme : de.month < 100)
    (hde : de.day < 100) (hhe : de.hour < 100) (hmine : de.minute < 100) :
    (handleAllDayToggle true st).newEventStart = formatDateLocal ds ∧
      (handleAllDayToggle true st).newEventEnd = formatDateLocal de ∧
      (handleAllDayToggle true st).newEventAllDay = true ∧
      (handleAllDayToggle true (handleAllDayToggle false
          (handleAllDayToggle true st))).newEventStart = formatDateLocal ds ∧
      (handleAllDayToggle true (handleAllDayToggle false
          (handleAllDayToggle true st))).newEventEnd = formatDateLocal de := by
  have h1 : handleAllDayToggle true st =
      { st with
        newEventAllDay := true
        newEventStart := formatDateLocal ds
        newEventEnd := formatDateLocal de } := by
    simp [handleAllDayToggle, parseToggleInput, hAD, hs, he,
      formatDateTimeLocal_ne_empty ds hy1 hy2,
      formatDateTimeLocal_ne_empty de hy1e hy2e,
      jsNewDate_format_dateTime ds hy1 hy2 hm hd hh hmin,
      jsNewDate_format_dateTime de hy1e hy2e hme hde hhe hmine,
      Option.or]
  have h2 : handleAllDayToggle false (handleAllDayToggle true st) =
      { st with
        newEventAllDay := false
        newEventStart := formatDateTimeLocal
          { year := ds.year, month := ds.month, day := ds.day,
            hour := 0, minute := 0 }
        newEventEnd := formatDateTimeLocal
          { year := de.year, month := de.month, day := de.day,
            hour := 0, minute := 0 } } := by
    rw [h1]
    simp [handleAllDayToggle, parseToggleInput,
      formatDateLocal_ne_empty ds hy1 hy2,
      formatDateLocal_ne_empty de hy1e hy2e,
      jsNewDate_format_date_midnight ds hy1 hy2 hm hd,
      jsNewDate_format_date_midnight de hy1e hy2e hme hde,
      Option.or]
  have h3 : handleAllDayToggle true (handleAllDayToggle false
      (handleAllDayToggle true st)) =
      { st with
        newEventAllDay := true
        newEventStart := formatDateLocal ds
        newEventEnd := formatDateLocal de } := by
    rw [h2]
    simp [handleAllDayToggle, parseToggleInput,
      formatDateTimeLocal_ne_empty
        { year := ds.year, month := ds.month, day := ds.day,
          hour := 0, minute := 0 } hy1 hy2,
      formatDateTimeLocal_ne_empty
        { year := de.year, month := de.month, day := de.day,
          hour := 0, minute := 0 } hy1e hy2e,
      jsNewDate_format_dateTime
        { year := ds.year, month := ds.month, day := ds.day,
          hour := 0, minute := 0 } hy1 hy2 hm hd (by simp) (by simp),
      jsNewDate_format_dateTime
        { year := de.year, month := de.month, day := de.day,
          hour := 0, minute := 0 } hy1e hy2e hme hde (by simp) (by simp),
      Option.or]
    constructor <;> rfl
  rw [h3, h1]
  exact ⟨rfl, rfl, rfl, rfl, rfl⟩

/-- Witness for C5 at a concrete timed window (2026-05-03 14:30 – 16:00). -/
theorem allDayToggle_roundtrip_witness :
    (handleAllDayToggle true
        { newEventAllDay := false, newEventStart := "2026-05-03T14:30",
          newEventEnd := "2026-05-03T16:00" }).newEventStart = "2026-05-03" ∧
      (handleAllDayToggle true
        { newEventAllDay := false, newEventStart := "2026-05-03T14:30",
          newEventEnd := "2026-05-03T16:00" }).newEventEnd = "2026-05-03" ∧
      (handleAllDayToggle true
        { newEventAllDay := false, newEventStart := "2026-05-03T14:30",
          newEventEnd := "2026-05-03T16:00" }).newEventAllDay = true ∧
      (handleAllDayToggle true (handleAllDayToggle false (handleAllDayToggle true
        { newEventAllDay := false, newEventStart := "2026-05-03T14:30",
          newEventEnd := "2026-05-03T16:00" }))).newEventStart = "2026-05-03" ∧
      (handleAllDayToggle true (handleAllDayToggle false (handleAllDayToggle true
        { newEventAllDay := false, newEventStart := "2026-05-03T14:30",
          newEventEnd := "2026-05-03T16:00" }))).newEventEnd = "2026-05-03" := by
  have h := allDayToggle_roundtrip
    { newEventAllDay := false, newEventStart := "2026-05-03T14:30",
      newEventEnd := "2026-05-03T16:00" }
    ⟨2026, 5, 3, 14, 30⟩ ⟨2026, 5, 3, 16, 0⟩ rfl rfl rfl
    (by decide) (by decide) (by decide) (by decide) (by decide) (by decide)
    (by decide) (by decide) (by decide) (by decide) (by decide) (by decide)
  exact h

end FamilyCalendar
